import Mathlib

/-!
Verification of the map-instantiation orchestration engine of
`src/windshaft/map-base.js` (WindshaftMap): request deduplication,
error normalization, host resolution and the metadata query operations.

JavaScript objects are embedded as association lists `List (String × α)`
with JS-object update semantics (replace-in-place, append when absent);
`undefined`/absent fields are `Option`; JS string truthiness (empty string
is falsy) is `jsTruthy`.
-/

namespace Windshaft

/-- JS truthiness of an optional string: `undefined`, `null` and `""` are falsy. -/
def jsTruthy : Option String → Bool
  | none => false
  | some s => s ≠ ""

/-- First position of `pat` in `s` starting at accumulated index `i`,
`-1` when absent: the recursion behind JS `String.prototype.indexOf`. -/
def indexOfAux (pat : List Char) : List Char → Nat → Int
  | [], i => if pat.isPrefixOf ([] : List Char) then (i : Int) else -1
  | c :: rest, i =>
      if pat.isPrefixOf (c :: rest) then (i : Int) else indexOfAux pat rest (i + 1)

/-- JS `s.indexOf(pat)`: index of the first occurrence of `pat` in `s`, else `-1`. -/
def jsIndexOf (s pat : String) : Int :=
  indexOfAux pat.toList s.toList 0

/-- JS `s.replace(pat, repl)` with a string pattern: replaces the first
occurrence only; returns `s` unchanged when `pat` does not occur. -/
def replaceFirstAux (pat repl : List Char) : List Char → List Char
  | [] => if pat.isPrefixOf ([] : List Char) then repl else []
  | c :: rest =>
      if pat.isPrefixOf (c :: rest) then repl ++ (c :: rest).drop pat.length
      else c :: replaceFirstAux pat repl rest

/-- JS `s.replace(pat, repl)` on strings (first occurrence only). -/
def jsReplaceFirst (s pat repl : String) : String :=
  ⟨replaceFirstAux pat.toList repl.toList s.toList⟩

/-- Set key `k` to `v` in a JS object: replace the first binding in place,
append when the key is absent. -/
def assocSet {α : Type} : List (String × α) → String → α → List (String × α)
  | [], k, v => [(k, v)]
  | (k1, v1) :: rest, k, v =>
      if k1 = k then (k1, v) :: rest else (k1, v1) :: assocSet rest k v

/-- JS property read `obj[k]`: value of the first binding of `k`, else `undefined`. -/
def assocGet {α : Type} (l : List (String × α)) (k : String) : Option α :=
  (l.find? (fun p => p.1 = k)).map (fun p => p.2)

/-- Embeds `_.extend(dst, src)`: copy every binding of `src` into `dst`, in order. -/
def jsExtend {α : Type} (dst src : List (String × α)) : List (String × α) :=
  src.foldl (fun acc p => assocSet acc p.1 p.2) dst

/-- Generic JSON-ish object used for per-layer metadata, widget tables,
analysis-node tables and filter payloads. -/
abbrev MetaVal := List (String × String)

/-- One layer descriptor of the instantiation response metadata. -/
structure LayerMeta where
  type : String
  meta : Option MetaVal
  widgets : Option (List (String × MetaVal))
deriving DecidableEq, Repr

/-- One analysis descriptor: its `nodes` table maps node ids to metadata. -/
structure Analysis where
  nodes : List (String × MetaVal)
deriving DecidableEq, Repr

/-- The `metadata` attribute of a Windshaft response. -/
structure Metadata where
  layers : Option (List LayerMeta)
  dataviews : Option (List (String × MetaVal))
  analyses : Option (List Analysis)
deriving DecidableEq, Repr

/-- Per-protocol CDN host map (`cdn_url` attribute). -/
structure CdnUrl where
  http : Option String
  https : Option String
deriving DecidableEq, Repr

/-- Backbone attributes of the WindshaftMap model that the embedded
operations read or write. -/
structure WindshaftAttrs where
  urlTemplate : String
  userName : String
  statTag : Option String
  apiKey : Option String
  authToken : Option String
  layergroupid : Option String
  cdn_url : Option CdnUrl
  metadata : Option Metadata
deriving DecidableEq, Repr

/-- Embeds `_getLayers`: `(this.get('metadata') && this.get('metadata').layers) || []`. -/
def getLayers (a : WindshaftAttrs) : List LayerMeta :=
  match a.metadata with
  | some md => md.layers.getD []
  | none => []

/-- Embeds `_getDataviews`: `(this.get('metadata') && this.get('metadata').dataviews) || []`. -/
def getDataviews (a : WindshaftAttrs) : List (String × MetaVal) :=
  match a.metadata with
  | some md => md.dataviews.getD []
  | none => []

/-- Embeds `_getAnalyses`: `(this.get('metadata') && this.get('metadata').analyses) || []`. -/
def getAnalyses (a : WindshaftAttrs) : List Analysis :=
  match a.metadata with
  | some md => md.analyses.getD []
  | none => []

/-- Embeds `_useHTTPS`: `this.get('urlTemplate').indexOf('https') === 0`. -/
def useHTTPS (a : WindshaftAttrs) : Bool :=
  jsIndexOf a.urlTemplate "https" == 0

/-- The protocol chosen by `_getHost`: `this._useHTTPS() ? 'https' : 'http'`. -/
def protocolOf (a : WindshaftAttrs) : String :=
  if useHTTPS a then "https" else "http"

/-- Embeds `getSupportedSubdomains`: four numeric labels for http, the empty label for https. -/
def getSupportedSubdomains (a : WindshaftAttrs) : List String :=
  if !useHTTPS a then ["0", "1", "2", "3"] else [""]

/-- The CDN host used by `_getHost`:
`this.get('cdn_url') && this.get('cdn_url')[protocol]`, with JS string
truthiness (an absent or empty entry yields no CDN host). -/
def cdnHostFor (cdn : Option CdnUrl) (protocol : String) : Option String :=
  match cdn with
  | none => none
  | some c =>
      let h := if protocol = "https" then c.https else c.http
      match h with
      | none => none
      | some s => if s = "" then none else some s

/-- Modelled from the spec: `WindshaftConfig.MAPS_API_BASE_URL` lives in
`src/windshaft/config.js`, which is not under `src/`; the spec names it
`mapsApiBasePath` without fixing a value, so the Maps API base path is used. -/
def MAPS_API_BASE_URL : String := "api/v1/map"

/-- Embeds `_getHost(subhost)`: CDN host for the chosen protocol when one exists,
otherwise the URL template with `{user}` substituted. -/
def getHost (a : WindshaftAttrs) (subhost : String) : String :=
  let userName := a.userName
  let protocol := protocolOf a
  let sub := if subhost = "" then "" else subhost ++ "."
  let host := jsReplaceFirst a.urlTemplate "{user}" userName
  match cdnHostFor a.cdn_url protocol with
  | some cdnHost => protocol ++ "://" ++ sub ++ cdnHost ++ "/" ++ userName
  | none => host

/-- Embeds `getBaseURL(subhost)`: `[host, MAPS_API_BASE_URL, layergroupid].join('/')`
(JS `join` renders an `undefined` element as the empty string). -/
def getBaseURL (a : WindshaftAttrs) (subhost : String) : String :=
  String.intercalate "/" [getHost a subhost, MAPS_API_BASE_URL, a.layergroupid.getD ""]

/-- Embeds `getLayerIndexesByType(layerType)`: indexes of the layers with that type. -/
def getLayerIndexesByType (a : WindshaftAttrs) (layerType : String) : List Nat :=
  (((getLayers a).enum).filter (fun p => p.2.type = layerType)).map (fun p => p.1)

/-- Embeds `getLayerMetadata(layerIndex)`: `layers[layerIndex].meta || {}`,
the empty object when the index is absent. -/
def getLayerMetadata (a : WindshaftAttrs) (layerIndex : Nat) : MetaVal :=
  match (getLayers a).get? layerIndex with
  | some layer => layer.meta.getD []
  | none => []

/-- Embeds `getDataviewMetadata(dataviewId)`: direct lookup in `metadata.dataviews`,
falling back to a merge of every layer's `widgets` table. -/
def getDataviewMetadata (a : WindshaftAttrs) (dataviewId : String) : Option MetaVal :=
  match assocGet (getDataviews a) dataviewId with
  | some v => some v
  | none =>
      let layersDataviews := (getLayers a).filterMap (fun layer => layer.widgets)
      let merged := layersDataviews.foldl (fun acc w => jsExtend acc w) []
      assocGet merged dataviewId

/-- Embeds `getAnalysisNodeMetadata(analysisId)`: lookup in the merge of every
analysis's `nodes` table. -/
def getAnalysisNodeMetadata (a : WindshaftAttrs) (analysisId : String) : Option MetaVal :=
  let nodes := (getAnalyses a).map (fun an => an.nodes)
  let metadata := nodes.foldl (fun acc n => jsExtend acc n) []
  assocGet metadata analysisId

/-- The serialized map definition produced by the subclass `toJSON`;
abstract to the orchestrator beyond equality. -/
structure Payload where
  raw : String
deriving DecidableEq, Repr

/-- The auxiliary request parameters built by `_getParams` (plus the
optional `filters` tree added by `createInstance`). -/
structure Params where
  stat_tag : Option String
  api_key : Option String
  auth_token : Option String
  filters : Option MetaVal
deriving DecidableEq, Repr

/-- Embeds `_getParams`: stat tag plus at most one credential; `apiKey` wins
over `authToken` when both are (JS-)truthy. -/
def getParams (a : WindshaftAttrs) : Params :=
  { stat_tag := a.statTag
    api_key := if jsTruthy a.apiKey then a.apiKey else none
    auth_token :=
      if jsTruthy a.apiKey then none
      else if jsTruthy a.authToken then a.authToken else none
    filters := none }

/-- A dataview filter as the orchestrator sees it: emptiness plus its
serialized form. -/
structure Filter where
  isEmpty : Bool
  toJSON : MetaVal
deriving DecidableEq, Repr

/-- One element of the dataviews collection; `filter` may be absent. -/
structure Dataview where
  filter : Option Filter
deriving DecidableEq, Repr

/-- Embeds `_getFilterParamFromDataviews`: fold over the dataviews, merging every
non-empty filter into one shared `dataviews` bucket. `some b` stands for
the JS object `\x7bdataviews: b\x7d`; `none` for the empty object `\x7b\x7d`. -/
def getFilterParamFromDataviews (dvs : List Dataview) : Option MetaVal :=
  dvs.foldl
    (fun acc dv =>
      match dv.filter with
      | some f => if f.isEmpty then acc else some (jsExtend (acc.getD []) f.toJSON)
      | none => acc)
    none

/-- The request `createInstance` builds: deduplication identity is the
(payload, params) pair, independent of the callbacks. -/
structure Request where
  payload : Payload
  params : Params
deriving DecidableEq, Repr

/-- Modelled from the spec: `RequestFingerprint` (the fingerprint of
`src/windshaft/request.js`, not under `src/`) — a stable identity of the
serialized (definition, params) pair, independent of callbacks. -/
def fingerprint (r : Request) : Payload × Params :=
  (r.payload, r.params)

/-- Attributes of one normalized Windshaft error: a message and optional
contextual fields. -/
structure ErrAttrs where
  message : Option String
  context : Option MetaVal
deriving DecidableEq, Repr

/-- Modelled from the spec: `WindshaftError` (`src/windshaft/error.js`, not
under `src/`) — a normalized error wrapping the attributes it was
constructed from, context preserved. -/
structure WindshaftError where
  attrs : ErrAttrs
deriving DecidableEq, Repr

/-- A raw backend error response as `_getErrorsFromResponse` inspects it. -/
structure ErrResponse where
  errors_with_context : Option (List ErrAttrs)
  errors : Option (List String)
deriving DecidableEq, Repr

/-- Embeds `_getErrorsFromResponse`: one error per `errors_with_context` entry;
else a single error from the head of `errors`; else no errors. -/
def getErrorsFromResponse (r : ErrResponse) : List WindshaftError :=
  match r.errors_with_context with
  | some l => l.map (fun e => WindshaftError.mk e)
  | none =>
      match r.errors with
      | some es => [WindshaftError.mk { message := es.get? 0, context := none }]
      | none => []

/-- A successful instantiation response: instance id, metadata, optional
CDN host map (per the backend-client contract). -/
structure SuccessResponse where
  layergroupid : String
  metadata : Metadata
  cdn_url : Option CdnUrl
deriving DecidableEq, Repr

/-- Backbone `this.set(response)` for a success response: each attribute
present in the response replaces the stored one wholesale. -/
def setResponse (a : WindshaftAttrs) (r : SuccessResponse) : WindshaftAttrs :=
  { a with
      layergroupid := some r.layergroupid
      metadata := some r.metadata
      cdn_url := match r.cdn_url with | some c => some c | none => a.cdn_url }

/-- The response handed to the tracker: success or error payload. -/
inductive TrackedResponse where
  | ok (r : SuccessResponse)
  | err (r : ErrResponse)
deriving DecidableEq, Repr

/-- One record of the tracker: fingerprint, occurrence count, last response. -/
structure TrackEntry where
  fp : Payload × Params
  count : Nat
  lastResponse : Option TrackedResponse
deriving DecidableEq, Repr

/-- Modelled from the spec: `RequestTracker` (`src/windshaft/request-tracker.js`,
not under `src/`) — a bounded record of recent fingerprints and their
occurrence counts, with an instantiation ceiling `limit` and an
oldest-fingerprint eviction once the distinct-fingerprint count exceeds `cap`. -/
structure RequestTracker where
  limit : Nat
  cap : Nat
  entries : List TrackEntry
deriving DecidableEq, Repr

/-- Occurrence count recorded for a fingerprint (0 when unseen). -/
def findCount (entries : List TrackEntry) (fp : Payload × Params) : Nat :=
  match entries.find? (fun e => e.fp = fp) with
  | some e => e.count
  | none => 0

/-- Modelled from the spec: `canRequestBePerformed` — false iff the
fingerprint's occurrence count already reached the limit; pure query. -/
def canRequestBePerformed (t : RequestTracker) (r : Request) : Bool :=
  findCount t.entries (fingerprint r) < t.limit

/-- Increment the fingerprint's record (creating it at count 1 when unseen,
appended as the newest entry) and store the latest response. -/
def bump (fp : Payload × Params) (resp : TrackedResponse) :
    List TrackEntry → List TrackEntry
  | [] => [⟨fp, 1, some resp⟩]
  | e :: rest =>
      if e.fp = fp then { e with count := e.count + 1, lastResponse := some resp } :: rest
      else e :: bump fp resp rest

/-- Modelled from the spec: `track(request, response)` — record one attempt,
then evict the oldest fingerprints while the distinct count exceeds `cap`. -/
def track (t : RequestTracker) (r : Request) (resp : TrackedResponse) : RequestTracker :=
  let entries := bump (fingerprint r) resp t.entries
  let entries := if t.cap < entries.length then entries.drop (entries.length - t.cap) else entries
  { t with entries := entries }

/-- A fresh tracker as `initialize` builds it (`new RequestTracker(limit)`). -/
def RequestTracker.fresh (limit cap : Nat) : RequestTracker :=
  { limit := limit, cap := cap, entries := [] }

/-- Iterate `track` `n` times with the same request and response. -/
def trackN (t : RequestTracker) (r : Request) (resp : TrackedResponse) : Nat → RequestTracker
  | 0 => t
  | n + 1 => track (trackN t r resp n) r resp

/- The max number of times the same map can be instantiated
(`MAP_INSTANTIATION_LIMIT`). -/
def MAP_INSTANTIATION_LIMIT : Nat := 3

/-- The mutable state `createInstance` touches: the Backbone attributes
and the request tracker. -/
structure WMapState where
  attrs : WindshaftAttrs
  tracker : RequestTracker
deriving DecidableEq, Repr

/-- Caller-supplied options of `createInstance`: which callbacks were
supplied, plus `sourceId`/`forceFetch` forwarded to the model updater. -/
structure CreateOptions where
  hasSuccess : Bool
  hasError : Bool
  sourceId : Option String
  forceFetch : Bool
deriving DecidableEq, Repr

/-- How the backend client resolves the (single) `instantiateMap` call:
its success callback with a response, or its error callback with a raw
error response (network failures included). -/
inductive ClientResult where
  | success (resp : SuccessResponse)
  | failure (resp : ErrResponse)
deriving DecidableEq, Repr

/-- Observable effects of one `createInstance` run, in order. -/
inductive Ev where
  | clientCall (payload : Payload) (params : Params)
  | trackReq
  | setAttrs
  | updateModels (sourceId : Option String) (forceFetch : Bool)
  | trigger (name : String)
  | successCb
  | errorCb
  | setErrors (errs : List WindshaftError)
  | logError
deriving DecidableEq, Repr

/-- Final state and effect trace of one `createInstance` run. -/
structure Outcome where
  state : WMapState
  trace : List Ev
deriving DecidableEq, Repr

/-- The params of the request `createInstance` builds: `_getParams` plus
the `filters` tree when `includeFilters` is set and some dataview
contributed a non-empty filter. -/
def builtParams (a : WindshaftAttrs) (dvs : List Dataview) (includeFilters : Bool) : Params :=
  let params := getParams a
  if includeFilters then
    match getFilterParamFromDataviews dvs with
    | some f => { params with filters := some f }
    | none => params
  else params

/-- Embeds `createInstance(options, includeFilters)`. Here `toJSON` is the subclass
serialization, `Except.error msg` when building the payload (or a dependent
model inside the `try` block) throws with that message; `client` is how the
backend would resolve the call if performed. Yields the final state and the
ordered effect trace. -/
def createInstance (st : WMapState) (dvs : List Dataview)
    (toJSON : Except String Payload) (client : ClientResult)
    (opts : CreateOptions) (includeFilters : Bool) : Outcome :=
  match toJSON with
  | .error msg =>
      let e : WindshaftError := ⟨{ message := some msg, context := none }⟩
      { state := st
        trace := [Ev.setErrors [e], Ev.logError] ++ (if opts.hasError then [Ev.errorCb] else []) }
  | .ok payload =>
      let params := builtParams st.attrs dvs includeFilters
      let request : Request := ⟨payload, params⟩
      if canRequestBePerformed st.tracker request then
        match client with
        | .success resp =>
            { state :=
                { attrs := setResponse st.attrs resp
                  tracker := track st.tracker request (TrackedResponse.ok resp) }
              trace :=
                [Ev.clientCall payload params, Ev.trackReq, Ev.setAttrs,
                 Ev.updateModels opts.sourceId opts.forceFetch,
                 Ev.trigger "instanceCreated"]
                ++ (if opts.hasSuccess then [Ev.successCb] else []) }
        | .failure resp =>
            { state := { st with tracker := track st.tracker request (TrackedResponse.err resp) }
              trace :=
                [Ev.clientCall payload params, Ev.trackReq,
                 Ev.setErrors (getErrorsFromResponse resp)]
                ++ (if opts.hasError then [Ev.errorCb] else []) }
      else
        { state := st
          trace := [Ev.logError] ++ (if opts.hasError then [Ev.errorCb] else []) }

/-- Whether an effect is a `setErrors` call on the model updater. -/
def isSetErrorsEv : Ev → Bool
  | Ev.setErrors _ => true
  | _ => false

/-- Whether an effect is a backend `instantiateMap` call. -/
def isClientCallEv : Ev → Bool
  | Ev.clientCall _ _ => true
  | _ => false

/-- Whether an effect is the invocation of the caller's success callback. -/
def isSuccessCbEv : Ev → Bool
  | Ev.successCb => true
  | _ => false

/-- Whether an effect is the invocation of the caller's error callback. -/
def isErrorCbEv : Ev → Bool
  | Ev.errorCb => true
  | _ => false

/-- The HostResolver algorithm written from the spec's words (§4.3), for
comparison with `getBaseURL`: protocol from the template's scheme prefix,
CDN form when a CDN host exists for the protocol, else the template with
`\x7buser\x7d` substituted; output joined with the base path and layergroup id. -/
def hostResolverSpec (a : WindshaftAttrs) (subhost : String) : String :=
  let protocol := if List.isPrefixOf "https".toList a.urlTemplate.toList then "https" else "http"
  let host :=
    match cdnHostFor a.cdn_url protocol with
    | some cdnHost =>
        protocol ++ "://" ++ (if subhost = "" then "" else subhost ++ ".")
          ++ cdnHost ++ "/" ++ a.userName
    | none => jsReplaceFirst a.urlTemplate "{user}" a.userName
  String.intercalate "/" [host, MAPS_API_BASE_URL, a.layergroupid.getD ""]

/-- Concrete model attributes used by the witnesses and counterexamples. -/
def sampleAttrs : WindshaftAttrs :=
  { urlTemplate := "http://{user}.example.com"
    userName := "acme"
    statTag := some "tag"
    apiKey := none
    authToken := none
    layergroupid := none
    cdn_url := none
    metadata := none }

/-- Concrete serialized payload used by the witnesses. -/
def samplePayload : Payload := ⟨"payload"⟩

/-- Concrete `createInstance` options with both callbacks supplied. -/
def sampleOpts : CreateOptions :=
  { hasSuccess := true, hasError := true, sourceId := none, forceFetch := false }

/-- Concrete backend error response with a plain `errors` list. -/
def sampleErrResponse : ErrResponse :=
  { errors_with_context := none, errors := some ["a", "b"] }

/-- Concrete client behavior: the backend call fails with `sampleErrResponse`. -/
def sampleClientFailure : ClientResult := .failure sampleErrResponse

/-- The request `createInstance` builds from `sampleAttrs` with no filters. -/
def sampleRequest : Request := ⟨samplePayload, builtParams sampleAttrs [] false⟩

/-- Concrete tracked response used when driving the tracker to its ceiling. -/
def sampleTrackedResp : TrackedResponse := .err sampleErrResponse

/-- A tracker that has recorded `MAP_INSTANTIATION_LIMIT` attempts of
`sampleRequest`, so its ceiling for that fingerprint is reached. -/
def sampleCeilTracker : RequestTracker :=
  trackN (RequestTracker.fresh MAP_INSTANTIATION_LIMIT 1) sampleRequest sampleTrackedResp
    MAP_INSTANTIATION_LIMIT

/-- State with a fresh tracker, as right after `initialize`. -/
def sampleFreshState : WMapState :=
  ⟨sampleAttrs, RequestTracker.fresh MAP_INSTANTIATION_LIMIT 1⟩

/-- State whose tracker already reached the ceiling for `sampleRequest`. -/
def sampleCeilState : WMapState := ⟨sampleAttrs, sampleCeilTracker⟩

/-- Concrete layer descriptor carried by `sampleSuccessResponse`. -/
def sampleLayer : LayerMeta :=
  { type := "cartodb", meta := some [("cartocss", "x")], widgets := none }

/-- Concrete metadata of a successful instantiation response. -/
def sampleMetadata : Metadata :=
  { layers := some [sampleLayer], dataviews := none, analyses := none }

/-- Concrete successful instantiation response. -/
def sampleSuccessResponse : SuccessResponse :=
  { layergroupid := "lg1", metadata := sampleMetadata, cdn_url := none }

/-- The result of `indexOfAux` is `-1` or at least the starting index. -/
theorem indexOfAux_neg_or_le (pat : List Char) :
    ∀ (s : List Char) (i : Nat),
      indexOfAux pat s i = -1 ∨ (i : Int) ≤ indexOfAux pat s i := by
  intro s
  induction s with
  | nil =>
      intro i
      by_cases h : pat.isPrefixOf ([] : List Char) <;> simp [indexOfAux, h]
  | cons c rest ih =>
      intro i
      by_cases h : pat.isPrefixOf (c :: rest)
      · right; simp [indexOfAux, h]
      · rcases ih (i + 1) with h1 | h1
        · left; simpa [indexOfAux, h] using h1
        · right
          simp only [indexOfAux, h, if_false]
          refine le_trans ?_ h1
          push_cast
          omega

/-- The JS index of a pattern is zero exactly when the pattern is a prefix. -/
theorem indexOfAux_zero_eq (pat s : List Char) :
    indexOfAux pat s 0 = 0 ↔ pat.isPrefixOf s = true := by
  cases s with
  | nil =>
      by_cases h : pat.isPrefixOf ([] : List Char) <;> simp [indexOfAux, h]
  | cons c rest =>
      by_cases h : pat.isPrefixOf (c :: rest)
      · simp [indexOfAux, h]
      · have h2 : pat.isPrefixOf (c :: rest) = false := Bool.eq_false_iff.mpr h
        simp [indexOfAux, h2]
        intro h0
        rcases indexOfAux_neg_or_le pat rest 1 with h1 | h1 <;> omega

/-- The `_useHTTPS` check is the textual scheme-prefix test on the template. -/
theorem useHTTPS_prefix_eq (a : WindshaftAttrs) :
    useHTTPS a = List.isPrefixOf "https".toList a.urlTemplate.toList := by
  rw [Bool.eq_iff_iff]
  unfold useHTTPS jsIndexOf
  rw [beq_iff_eq, indexOfAux_zero_eq]

/-- C5: for every raw backend response, a response with
`errors_with_context` yields one normalized error per entry, context
preserved; else a response with a non-empty `errors` list yields exactly
one normalized error carrying the first string; else no errors. The
transform is a pure function of the response. -/
theorem errorNormalizer_cases (l : List ErrAttrs) (es : Option (List String))
    (s : String) (rest : List String) :
    getErrorsFromResponse ⟨some l, es⟩ = l.map WindshaftError.mk ∧
    getErrorsFromResponse ⟨none, some (s :: rest)⟩
      = [WindshaftError.mk ⟨some s, none⟩] ∧
    getErrorsFromResponse ⟨none, none⟩ = [] := by
  refine ⟨?_, ?_, rfl⟩ <;> simp [getErrorsFromResponse]

/-- C6: the chosen protocol is https exactly when the stored URL template
textually starts with `https`, and the supported subdomains are
`0,1,2,3` for http and only the empty label for https. -/
theorem protocol_and_subdomains (a : WindshaftAttrs) :
    (protocolOf a = "https" ↔ List.isPrefixOf "https".toList a.urlTemplate.toList = true) ∧
    useHTTPS a = List.isPrefixOf "https".toList a.urlTemplate.toList ∧
    getSupportedSubdomains a = (if useHTTPS a then [""] else ["0", "1", "2", "3"]) := by
    refine ⟨?_, useHTTPS_prefix_eq a, ?_⟩
    · rw [← useHTTPS_prefix_eq a]
      unfold protocolOf
      by_cases h : useHTTPS a <;> simp [h]
    · unfold getSupportedSubdomains
      by_cases h : useHTTPS a <;> simp [h]

/-- C7: `getBaseURL` is a pure function of the stored state and subhost and
coincides with the HostResolver algorithm as the spec words it: the host is
the per-protocol CDN form when a CDN host exists (subhost separator only
when the subhost is non-empty), else the template with the user
substituted, joined with the base path and layergroup id. -/
theorem getBaseURL_eq_hostResolverSpec (a : WindshaftAttrs) (subhost : String) :
    getBaseURL a subhost = hostResolverSpec a subhost := by
  unfold getBaseURL hostResolverSpec getHost protocolOf
  rw [useHTTPS_prefix_eq]

/-- The filters step of `createInstance` leaves the credential and stat-tag
fields of `_getParams` untouched. -/
theorem builtParams_proj (a : WindshaftAttrs) (dvs : List Dataview) (includeFilters : Bool) :
    (builtParams a dvs includeFilters).stat_tag = (getParams a).stat_tag ∧
    (builtParams a dvs includeFilters).api_key = (getParams a).api_key ∧
    (builtParams a dvs includeFilters).auth_token = (getParams a).auth_token := by
  unfold builtParams
  cases includeFilters
  · simp
  · cases hgf : getFilterParamFromDataviews dvs <;> simp [hgf]

/-- C8: the request params built by `createInstance` carry the stat tag and
at most one credential: the API key when it is set (any auth token then
ignored), else the auth token when set; never both. -/
theorem builtParams_credentials (a : WindshaftAttrs) (dvs : List Dataview)
    (includeFilters : Bool) :
    (builtParams a dvs includeFilters).stat_tag = a.statTag ∧
    (builtParams a dvs includeFilters).api_key
      = (if jsTruthy a.apiKey then a.apiKey else none) ∧
    (builtParams a dvs includeFilters).auth_token
      = (if jsTruthy a.apiKey then none
         else if jsTruthy a.authToken then a.authToken else none) ∧
    ((builtParams a dvs includeFilters).api_key = none ∨
      (builtParams a dvs includeFilters).auth_token = none) := by
  obtain ⟨h1, h2, h3⟩ := builtParams_proj a dvs includeFilters
  rw [h1, h2, h3]
  unfold getParams
  by_cases h : jsTruthy a.apiKey <;> by_cases h4 : jsTruthy a.authToken <;> simp [h, h4]

/-- C10: the metadata queries are total: with no stored metadata,
`getLayerMetadata` yields the empty object, `getLayerIndexesByType` the
empty list, and the dataview and analysis lookups no value; an
out-of-range layer index also yields the empty object. -/
theorem metadata_queries_total (a : WindshaftAttrs) (i : Nat) (ty id aid : String) :
    (a.metadata = none →
        getLayerMetadata a i = [] ∧
        getLayerIndexesByType a ty = [] ∧
        getDataviewMetadata a id = none ∧
        getAnalysisNodeMetadata a aid = none) ∧
    ((getLayers a).length ≤ i → getLayerMetadata a i = []) := by
  constructor
  · intro h
    refine ⟨?_, ?_, ?_, ?_⟩ <;>
      simp [getLayerMetadata, getLayerIndexesByType, getDataviewMetadata,
        getAnalysisNodeMetadata, getLayers, getDataviews, getAnalyses, h,
        assocGet, jsExtend]
  · intro h
    simp [getLayerMetadata, List.getElem?_eq_none h]

/-- Witness for C10 at a concrete metadata-free state and index 5. -/
theorem metadata_queries_total_witness :
    sampleAttrs.metadata = none ∧
    (getLayers sampleAttrs).length ≤ 5 ∧
    (getLayerMetadata sampleAttrs 0 = [] ∧
      getLayerIndexesByType sampleAttrs "cartodb" = [] ∧
      getDataviewMetadata sampleAttrs "dv" = none ∧
      getAnalysisNodeMetadata sampleAttrs "a1" = none) ∧
    getLayerMetadata sampleAttrs 5 = [] :=
  ⟨rfl, by decide,
    (metadata_queries_total sampleAttrs 0 "cartodb" "dv" "a1").1 rfl,
    (metadata_queries_total sampleAttrs 5 "cartodb" "dv" "a1").2 (by decide)⟩

/-- Tracking a request on a fresh tracker creates its record at count 1. -/
theorem track_fresh (L cap : Nat) (hcap : 0 < cap) (r : Request) (resp : TrackedResponse) :
    track (RequestTracker.fresh L cap) r resp
      = ⟨L, cap, [⟨fingerprint r, 1, some resp⟩]⟩ := by
  have h2 : ¬ (cap < 1) := by omega
  simp [track, RequestTracker.fresh, bump, h2]

/-- Tracking a request whose fingerprint is the single recorded one bumps
its count and stores the latest response. -/
theorem track_single (L cap k : Nat) (hcap : 0 < cap) (r : Request)
    (resp : TrackedResponse) (o : Option TrackedResponse) :
    track ⟨L, cap, [⟨fingerprint r, k, o⟩]⟩ r resp
      = ⟨L, cap, [⟨fingerprint r, k + 1, some resp⟩]⟩ := by
  have h2 : ¬ (cap < 1) := by omega
  simp [track, bump, h2]

/-- After `n + 1` identical attempts on a fresh tracker the fingerprint's
record is exactly at count `n + 1`. -/
theorem trackN_fresh_succ (L cap : Nat) (hcap : 0 < cap) (r : Request)
    (resp : TrackedResponse) :
    ∀ n : Nat, trackN (RequestTracker.fresh L cap) r resp (n + 1)
      = ⟨L, cap, [⟨fingerprint r, n + 1, some resp⟩]⟩ := by
  intro n
  induction n with
  | zero => exact track_fresh L cap hcap r resp
  | succ m ih =>
      show track (trackN (RequestTracker.fresh L cap) r resp (m + 1)) r resp = _
      rw [ih]
      exact track_single L cap (m + 1) hcap r resp (some resp)

/-- A tracker whose record for a fingerprint already reached the limit
rejects any request with that fingerprint. -/
theorem canRequestBePerformed_at_limit (L cap : Nat) (r : Request)
    (o : Option TrackedResponse) :
    canRequestBePerformed ⟨L, cap, [⟨fingerprint r, L, o⟩]⟩ r = false := by
  simp [canRequestBePerformed, findCount, List.find?]

/-- C1: after exactly `limit` recorded attempts with one fingerprint (from
a fresh tracker), `canRequestBePerformed` rejects that fingerprint, and a
subsequent `createInstance` producing it is rejected locally: the trace is
only the log and the caller's error callback — no backend call — and the
state is unchanged. -/
theorem instantiation_ceiling (L cap : Nat) (hL : 0 < L) (hcap : 0 < cap)
    (attrs : WindshaftAttrs) (dvs : List Dataview) (payload : Payload)
    (includeFilters : Bool) (resp : TrackedResponse) (client : ClientResult)
    (opts : CreateOptions) (hErr : opts.hasError = true) :
    canRequestBePerformed
        (trackN (RequestTracker.fresh L cap)
          ⟨payload, builtParams attrs dvs includeFilters⟩ resp L)
        ⟨payload, builtParams attrs dvs includeFilters⟩ = false ∧
    (createInstance
        ⟨attrs, trackN (RequestTracker.fresh L cap)
          ⟨payload, builtParams attrs dvs includeFilters⟩ resp L⟩
        dvs (Except.ok payload) client opts includeFilters).trace
      = [Ev.logError, Ev.errorCb] ∧
    (createInstance
        ⟨attrs, trackN (RequestTracker.fresh L cap)
          ⟨payload, builtParams attrs dvs includeFilters⟩ resp L⟩
        dvs (Except.ok payload) client opts includeFilters).state
      = ⟨attrs, trackN (RequestTracker.fresh L cap)
          ⟨payload, builtParams attrs dvs includeFilters⟩ resp L⟩ := by
  obtain ⟨m, rfl⟩ : ∃ m, L = m + 1 := ⟨L - 1, by omega⟩
  rw [trackN_fresh_succ (m + 1) cap hcap
    ⟨payload, builtParams attrs dvs includeFilters⟩ resp m]
  have hcan := canRequestBePerformed_at_limit (m + 1) cap
    ⟨payload, builtParams attrs dvs includeFilters⟩ (some resp)
  refine ⟨hcan, ?_, ?_⟩ <;> simp [createInstance, hcan, hErr]

/-- Witness for C1 with the default limit 3 at concrete state and request. -/
theorem instantiation_ceiling_witness :
    0 < MAP_INSTANTIATION_LIMIT ∧ 0 < 1 ∧ sampleOpts.hasError = true ∧
    (canRequestBePerformed
        (trackN (RequestTracker.fresh MAP_INSTANTIATION_LIMIT 1)
          ⟨samplePayload, builtParams sampleAttrs [] false⟩ sampleTrackedResp
          MAP_INSTANTIATION_LIMIT)
        ⟨samplePayload, builtParams sampleAttrs [] false⟩ = false ∧
      (createInstance
          ⟨sampleAttrs, trackN (RequestTracker.fresh MAP_INSTANTIATION_LIMIT 1)
            ⟨samplePayload, builtParams sampleAttrs [] false⟩ sampleTrackedResp
            MAP_INSTANTIATION_LIMIT⟩
          [] (Except.ok samplePayload) sampleClientFailure sampleOpts false).trace
        = [Ev.logError, Ev.errorCb] ∧
      (createInstance
          ⟨sampleAttrs, trackN (RequestTracker.fresh MAP_INSTANTIATION_LIMIT 1)
            ⟨samplePayload, builtParams sampleAttrs [] false⟩ sampleTrackedResp
            MAP_INSTANTIATION_LIMIT⟩
          [] (Except.ok samplePayload) sampleClientFailure sampleOpts false).state
        = ⟨sampleAttrs, trackN (RequestTracker.fresh MAP_INSTANTIATION_LIMIT 1)
            ⟨samplePayload, builtParams sampleAttrs [] false⟩ sampleTrackedResp
            MAP_INSTANTIATION_LIMIT⟩) :=
  ⟨by decide, by decide, rfl,
    instantiation_ceiling MAP_INSTANTIATION_LIMIT 1 (by decide) (by decide) sampleAttrs []
      samplePayload false sampleTrackedResp sampleClientFailure sampleOpts rfl⟩

/-- C2 (amended): a local build failure updates dependent error state via
`setErrors` and invokes the error callback; an instantiation-ceiling
rejection logs and invokes the error callback without a `setErrors`
update; a backend or network failure records the attempt, updates error
state via `setErrors` and invokes the error callback. No kind escapes
`createInstance` (the run is a total function producing a trace). -/
theorem error_propagation (st : WMapState) (dvs : List Dataview) (msg : String)
    (payload : Payload) (eresp : ErrResponse) (client : ClientResult)
    (opts : CreateOptions) (includeFilters : Bool) (hErr : opts.hasError = true) :
    (createInstance st dvs (Except.error msg) client opts includeFilters).trace
      = [Ev.setErrors [⟨⟨some msg, none⟩⟩], Ev.logError, Ev.errorCb] ∧
    (canRequestBePerformed st.tracker
        ⟨payload, builtParams st.attrs dvs includeFilters⟩ = false →
      (createInstance st dvs (Except.ok payload) client opts includeFilters).trace
        = [Ev.logError, Ev.errorCb]) ∧
    (canRequestBePerformed st.tracker
        ⟨payload, builtParams st.attrs dvs includeFilters⟩ = true →
      (createInstance st dvs (Except.ok payload) (ClientResult.failure eresp) opts
          includeFilters).trace
        = [Ev.clientCall payload (builtParams st.attrs dvs includeFilters), Ev.trackReq,
           Ev.setErrors (getErrorsFromResponse eresp), Ev.errorCb]) := by
  refine ⟨?_, ?_, ?_⟩
  · simp [createInstance, hErr]
  · intro h
    simp [createInstance, hErr, h]
  · intro h
    simp [createInstance, hErr, h]

/-- Counterexample to C2 as stated: at the instantiation ceiling the error
callback is invoked, yet no `setErrors` update of dependent error state
occurs in the run. -/
theorem error_propagation_counterexample :
    Ev.errorCb ∈ (createInstance sampleCeilState [] (Except.ok samplePayload)
        sampleClientFailure sampleOpts false).trace ∧
    (createInstance sampleCeilState [] (Except.ok samplePayload)
        sampleClientFailure sampleOpts false).trace.any isSetErrorsEv = false := by
  decide

/-- Witness for C2 (amended) at concrete states for all three error kinds. -/
theorem error_propagation_witness :
    sampleOpts.hasError = true ∧
    canRequestBePerformed sampleCeilState.tracker
      ⟨samplePayload, builtParams sampleCeilState.attrs [] false⟩ = false ∧
    canRequestBePerformed sampleFreshState.tracker
      ⟨samplePayload, builtParams sampleFreshState.attrs [] false⟩ = true ∧
    (createInstance sampleFreshState [] (Except.error "boom") sampleClientFailure
        sampleOpts false).trace
      = [Ev.setErrors [⟨⟨some "boom", none⟩⟩], Ev.logError, Ev.errorCb] ∧
    (createInstance sampleCeilState [] (Except.ok samplePayload) sampleClientFailure
        sampleOpts false).trace = [Ev.logError, Ev.errorCb] ∧
    (createInstance sampleFreshState [] (Except.ok samplePayload)
        (ClientResult.failure sampleErrResponse) sampleOpts false).trace
      = [Ev.clientCall samplePayload (builtParams sampleFreshState.attrs [] false),
         Ev.trackReq, Ev.setErrors (getErrorsFromResponse sampleErrResponse), Ev.errorCb] :=
  ⟨rfl, by decide, by decide,
    (error_propagation sampleFreshState [] "boom" samplePayload sampleErrResponse
      sampleClientFailure sampleOpts false rfl).1,
    (error_propagation sampleCeilState [] "boom" samplePayload sampleErrResponse
      sampleClientFailure sampleOpts false rfl).2.1 (by decide),
    (error_propagation sampleFreshState [] "boom" samplePayload sampleErrResponse
      sampleClientFailure sampleOpts false rfl).2.2 (by decide)⟩

/-- C3 (amended): when building the payload throws, the exception is caught
and wrapped into exactly one normalized error carrying its message, that
single error is forwarded via `setErrors`, the error callback is invoked
exactly once — but the failed attempt is not recorded in the tracker: the
state (tracker included) is unchanged. -/
theorem build_failure_handling (st : WMapState) (dvs : List Dataview) (msg : String)
    (client : ClientResult) (opts : CreateOptions) (includeFilters : Bool)
    (hErr : opts.hasError = true) :
    (createInstance st dvs (Except.error msg) client opts includeFilters).trace
      = [Ev.setErrors [⟨⟨some msg, none⟩⟩], Ev.logError, Ev.errorCb] ∧
    ((createInstance st dvs (Except.error msg) client opts includeFilters).trace.filter
        isErrorCbEv) = [Ev.errorCb] ∧
    ((createInstance st dvs (Except.error msg) client opts includeFilters).trace.filter
        isSetErrorsEv) = [Ev.setErrors [⟨⟨some msg, none⟩⟩]] ∧
    (createInstance st dvs (Except.error msg) client opts includeFilters).state = st := by
  refine ⟨?_, ?_, ?_, ?_⟩ <;>
    simp [createInstance, hErr, List.filter, isErrorCbEv, isSetErrorsEv]

/-- Counterexample to C3 as stated: after a build failure nothing was
recorded in the tracker — it is still the fresh tracker and no tracking
effect occurred. -/
theorem build_failure_counterexample :
    (createInstance sampleFreshState [] (Except.error "boom") sampleClientFailure
        sampleOpts false).state.tracker = RequestTracker.fresh MAP_INSTANTIATION_LIMIT 1 ∧
    Ev.trackReq ∉ (createInstance sampleFreshState [] (Except.error "boom")
        sampleClientFailure sampleOpts false).trace := by
  decide

/-- Witness for C3 (amended) at a concrete throwing build step. -/
theorem build_failure_handling_witness :
    sampleOpts.hasError = true ∧
    ((createInstance sampleFreshState [] (Except.error "oops") sampleClientFailure
        sampleOpts false).trace
      = [Ev.setErrors [⟨⟨some "oops", none⟩⟩], Ev.logError, Ev.errorCb] ∧
    ((createInstance sampleFreshState [] (Except.error "oops") sampleClientFailure
        sampleOpts false).trace.filter isErrorCbEv) = [Ev.errorCb] ∧
    ((createInstance sampleFreshState [] (Except.error "oops") sampleClientFailure
        sampleOpts false).trace.filter isSetErrorsEv)
      = [Ev.setErrors [⟨⟨some "oops", none⟩⟩]] ∧
    (createInstance sampleFreshState [] (Except.error "oops") sampleClientFailure
        sampleOpts false).state = sampleFreshState) :=
  ⟨rfl, build_failure_handling sampleFreshState [] "oops" sampleClientFailure
    sampleOpts false rfl⟩

/-- C4: on a successful backend call the run performs, in order, the
tracker record, the wholesale attribute replacement from the response,
the dependent-model update, the instance-created notification and the
caller's success callback; the stored metadata equals the response's
metadata wholesale, and the success callback fires exactly once while the
error callback never fires. -/
theorem success_path (st : WMapState) (dvs : List Dataview) (payload : Payload)
    (resp : SuccessResponse) (opts : CreateOptions) (includeFilters : Bool)
    (hcan : canRequestBePerformed st.tracker
      ⟨payload, builtParams st.attrs dvs includeFilters⟩ = true)
    (hs : opts.hasSuccess = true) :
    (createInstance st dvs (Except.ok payload) (ClientResult.success resp) opts
        includeFilters).trace
      = [Ev.clientCall payload (builtParams st.attrs dvs includeFilters), Ev.trackReq,
         Ev.setAttrs, Ev.updateModels opts.sourceId opts.forceFetch,
         Ev.trigger "instanceCreated", Ev.successCb] ∧
    (createInstance st dvs (Except.ok payload) (ClientResult.success resp) opts
        includeFilters).state.attrs = setResponse st.attrs resp ∧
    (createInstance st dvs (Except.ok payload) (ClientResult.success resp) opts
        includeFilters).state.attrs.metadata = some resp.metadata ∧
    (createInstance st dvs (Except.ok payload) (ClientResult.success resp) opts
        includeFilters).state.tracker
      = track st.tracker ⟨payload, builtParams st.attrs dvs includeFilters⟩
          (TrackedResponse.ok resp) ∧
    ((createInstance st dvs (Except.ok payload) (ClientResult.success resp) opts
        includeFilters).trace.filter isSuccessCbEv) = [Ev.successCb] ∧
    ((createInstance st dvs (Except.ok payload) (ClientResult.success resp) opts
        includeFilters).trace.filter isErrorCbEv) = [] := by
  refine ⟨?_, ?_, ?_, ?_, ?_, ?_⟩ <;>
    simp [createInstance, hcan, hs, setResponse, List.filter, isSuccessCbEv, isErrorCbEv]

/-- Witness for C4 at a concrete fresh state and successful response. -/
theorem success_path_witness :
    canRequestBePerformed sampleFreshState.tracker
      ⟨samplePayload, builtParams sampleFreshState.attrs [] false⟩ = true ∧
    sampleOpts.hasSuccess = true ∧
    ((createInstance sampleFreshState [] (Except.ok samplePayload)
        (ClientResult.success sampleSuccessResponse) sampleOpts false).trace
      = [Ev.clientCall samplePayload (builtParams sampleFreshState.attrs [] false),
         Ev.trackReq, Ev.setAttrs, Ev.updateModels sampleOpts.sourceId sampleOpts.forceFetch,
         Ev.trigger "instanceCreated", Ev.successCb] ∧
    (createInstance sampleFreshState [] (Except.ok samplePayload)
        (ClientResult.success sampleSuccessResponse) sampleOpts false).state.attrs
      = setResponse sampleFreshState.attrs sampleSuccessResponse ∧
    (createInstance sampleFreshState [] (Except.ok samplePayload)
        (ClientResult.success sampleSuccessResponse) sampleOpts false).state.attrs.metadata
      = some sampleSuccessResponse.metadata ∧
    (createInstance sampleFreshState [] (Except.ok samplePayload)
        (ClientResult.success sampleSuccessResponse) sampleOpts false).state.tracker
      = track sampleFreshState.tracker
          ⟨samplePayload, builtParams sampleFreshState.attrs [] false⟩
          (TrackedResponse.ok sampleSuccessResponse) ∧
    ((createInstance sampleFreshState [] (Except.ok samplePayload)
        (ClientResult.success sampleSuccessResponse) sampleOpts false).trace.filter
        isSuccessCbEv) = [Ev.successCb] ∧
    ((createInstance sampleFreshState [] (Except.ok samplePayload)
        (ClientResult.success sampleSuccessResponse) sampleOpts false).trace.filter
        isErrorCbEv) = []) :=
  ⟨by decide, rfl,
    success_path sampleFreshState [] samplePayload sampleSuccessResponse sampleOpts false
      (by decide) rfl⟩

/-- C9: after a successful instantiation, `getLayerMetadata i` returns
exactly the metadata object at index `i` of the response's layer list,
unmodified. -/
theorem layer_metadata_roundtrip (st : WMapState) (dvs : List Dataview)
    (payload : Payload) (resp : SuccessResponse) (opts : CreateOptions)
    (includeFilters : Bool) (i : Nat) (ls : List LayerMeta) (layer : LayerMeta)
    (m : MetaVal)
    (hcan : canRequestBePerformed st.tracker
      ⟨payload, builtParams st.attrs dvs includeFilters⟩ = true)
    (hls : resp.metadata.layers = some ls)
    (hl : ls[i]? = some layer)
    (hm : layer.meta = some m) :
    getLayerMetadata
      (createInstance st dvs (Except.ok payload) (ClientResult.success resp) opts
        includeFilters).state.attrs i = m := by
  simp [createInstance, hcan, getLayerMetadata, getLayers, setResponse, hls, hl, hm]

/-- Witness for C9 at a concrete response with one layer carrying metadata. -/
theorem layer_metadata_roundtrip_witness :
    canRequestBePerformed sampleFreshState.tracker
      ⟨samplePayload, builtParams sampleFreshState.attrs [] false⟩ = true ∧
    sampleSuccessResponse.metadata.layers = some [sampleLayer] ∧
    ([sampleLayer] : List LayerMeta)[0]? = some sampleLayer ∧
    sampleLayer.meta = some [("cartocss", "x")] ∧
    getLayerMetadata
      (createInstance sampleFreshState [] (Except.ok samplePayload)
        (ClientResult.success sampleSuccessResponse) sampleOpts false).state.attrs 0
      = [("cartocss", "x")] :=
  ⟨by decide, rfl, rfl, rfl,
    layer_metadata_roundtrip sampleFreshState [] samplePayload sampleSuccessResponse
      sampleOpts false 0 [sampleLayer] sampleLayer [("cartocss", "x")]
      (by decide) rfl rfl rfl⟩

end Windshaft
